import Mathlib

/-!
Shallow embedding of `src/python/main.py`, a short script that defines a
`Dog` class, an `Animal` class and a `Cat` subclass, instantiates them and
calls their printing methods at module scope.

Python objects are modelled as attribute dictionaries (association lists
from attribute names to values), with attribute assignment shadowing and
CPython identifier name mangling for class-private names.  Method dispatch
walks the method resolution order of the instance's class.  Each method of
the script prints one fixed line; a method call is modelled as the updated
receiver, the list of printed lines, and the returned value (`none` models
Python's `None`, the implicit return of all three methods).
-/

namespace GoPy

/-- CPython name mangling: inside the body of a class `cls`, an attribute
identifier that starts with two underscores and does not end with two
underscores is rewritten to `_cls` followed by the identifier.  The two
affix tests are phrased on the character list so that they reduce by
computation. -/
def mangle (cls attr : String) : String :=
  if attr.data.take 2 = ['_', '_'] ∧ attr.data.reverse.take 2 ≠ ['_', '_'] then
    "_" ++ cls ++ attr
  else attr

/-- The attribute dictionary of a Python object: an association list from
attribute names to values of type `α`.  Newer assignments are consed on the
front and shadow older ones. -/
abbrev Attrs (α : Type) := List (String × α)

/-- `self.k = v`: attribute assignment, shadowing any earlier binding of `k`. -/
def setattr {α : Type} (o : Attrs α) (k : String) (v : α) : Attrs α :=
  (k, v) :: o

/-- `self.k`: attribute lookup; `none` models an `AttributeError`. -/
def getattr {α : Type} (o : Attrs α) (k : String) : Option α :=
  match o with
  | [] => none
  | (k', v) :: rest => if k' = k then some v else getattr rest k

/-- The three classes defined by the script. -/
inductive PyClass : Type
  | Dog : PyClass
  | Animal : PyClass
  | Cat : PyClass
deriving DecidableEq, BEq, Repr

/-- The base class declared in each class header of the script:
`class Dog:`, `class Animal:`, `class Cat(Animal):`. -/
def base : PyClass → Option PyClass
  | .Cat => some .Animal
  | _ => none

/-- Method resolution order of a class: the class itself followed by its
bases (the script's hierarchy has depth at most two). -/
def mro (c : PyClass) : List PyClass :=
  match base c with
  | none => [c]
  | some b =>
    match base b with
    | none => [c, b]
    | some b2 => [c, b, b2]

/-- A constructed Python object: its concrete class and its attribute
dictionary. -/
structure Instance (α : Type) : Type where
  cls : PyClass
  attrs : Attrs α
deriving DecidableEq, Repr

/-- `isinstance(inst, c)`: whether `c` occurs in the method resolution
order of the instance's concrete class. -/
def isinstance {α : Type} (inst : Instance α) (c : PyClass) : Bool :=
  (mro inst.cls).contains c

/-- Body of `Dog.__init__(self, name, breed)`:
`self.name = name` then `self.breed = breed`, starting from a fresh empty
object.  Attribute names are passed through `mangle` as CPython does for
every attribute identifier appearing in a class body. -/
def Dog_init {α : Type} (name breed : α) : Attrs α :=
  setattr (setattr [] (mangle "Dog" "name") name) (mangle "Dog" "breed") breed

/-- `Dog(name, breed)`: allocate a fresh `Dog` instance and run
`Dog.__init__` on it. -/
def mkDog {α : Type} (name breed : α) : Instance α :=
  ⟨PyClass.Dog, Dog_init name breed⟩

/-- Body of `Animal.__init__(self, name)`: `self.__name = name`; the
identifier `__name` is name-mangled to `_Animal__name`. -/
def Animal_init {α : Type} (name : α) : Attrs α :=
  setattr [] (mangle "Animal" "__name") name

/-- `Animal(name)`: allocate a fresh `Animal` instance and run
`Animal.__init__` on it. -/
def mkAnimal {α : Type} (name : α) : Instance α :=
  ⟨PyClass.Animal, Animal_init name⟩

/-- Body of `Cat.__init__(self, name)`: `super().__init__(name)`, i.e. it
runs `Animal.__init__` on the fresh object and nothing else. -/
def Cat_init {α : Type} (name : α) : Attrs α :=
  Animal_init name

/-- `Cat(name)`: allocate a fresh `Cat` instance and run `Cat.__init__`
on it. -/
def mkCat {α : Type} (name : α) : Instance α :=
  ⟨PyClass.Cat, Cat_init name⟩

/-- Result of a Python method call: the receiver after the call, the lines
printed during the call, and the returned value (`none` models `None`). -/
structure MethodResult (α : Type) : Type where
  self : Instance α
  output : List String
  ret : Option α
deriving DecidableEq, Repr

/-- Body of `Dog.bark(self)`: `print("Woof!")`; no attribute of `self` is
read or written and the method returns `None`. -/
def Dog_bark {α : Type} (self : Instance α) : MethodResult α :=
  ⟨self, ["Woof!"], none⟩

/-- Body of `Animal.speak(self)`: `print("Generic animal sound")`. -/
def Animal_speak {α : Type} (self : Instance α) : MethodResult α :=
  ⟨self, ["Generic animal sound"], none⟩

/-- Body of `Cat.speak(self)`: `print("Meow!")`, overriding
`Animal.speak`. -/
def Cat_speak {α : Type} (self : Instance α) : MethodResult α :=
  ⟨self, ["Meow!"], none⟩

/-- The methods defined directly in each class body of the script. -/
def classMethod {α : Type} (c : PyClass) (m : String) :
    Option (Instance α → MethodResult α) :=
  match c, m with
  | .Dog, "bark" => some Dog_bark
  | .Animal, "speak" => some Animal_speak
  | .Cat, "speak" => some Cat_speak
  | _, _ => none

/-- Method lookup along the method resolution order of a class: the first
class in the MRO that defines the method wins (dynamic dispatch). -/
def resolveMethod {α : Type} (c : PyClass) (m : String) :
    Option (Instance α → MethodResult α) :=
  (mro c).findSome? (fun k => classMethod k m)

/-- `inst.m()`: resolve the method on the instance's concrete class and
run it; `none` models an `AttributeError` at the call site. -/
def callMethod {α : Type} (inst : Instance α) (m : String) :
    Option (MethodResult α) :=
  (resolveMethod inst.cls m).map (fun f => f inst)

/-- The module top level of `src/python/main.py`, in source order:
`my_dog = Dog("Fido", "Labrador")`, `print(my_dog.name)`, `my_dog.bark()`,
`my_cat = Cat("Whiskers")`, `my_cat.speak()`.  The result is the list of
lines the script writes to the console, or `none` if any step raises. -/
def script : Option (List String) :=
  let my_dog := mkDog "Fido" "Labrador"
  match getattr my_dog.attrs "name" with
  | none => none
  | some n =>
    match callMethod my_dog "bark" with
    | none => none
    | some r1 =>
      let my_cat := mkCat "Whiskers"
      match callMethod my_cat "speak" with
      | none => none
      | some r2 => some ([n] ++ r1.output ++ r2.output)

/-- Claim C1, as frozen, is false: the listed steps (define `Dog`,
instantiate it, invoke `bark`, define `Animal`, define `Cat`, instantiate
`Cat`, invoke `speak`) print only "Woof!" and "Meow!", but the script's
console output is not exactly those lines, because the script also executes
`print(my_dog.name)` between the `Dog` instantiation and `my_dog.bark()`. -/
theorem C1_counterexample : script ≠ some ["Woof!", "Meow!"] := by decide

/-- Claim C1 (amended): the script's top-level execution consists exactly,
in order, of defining `Dog`, instantiating it, printing the instance's
`name` attribute, invoking `bark`, defining `Animal`, defining `Cat`,
instantiating `Cat`, and invoking `speak`; each invoked action writes one
line of fixed text and the attribute print writes the stored name, so the
console output is exactly "Fido", "Woof!", "Meow!" and nothing else. -/
theorem C1_script_output : script = some ["Fido", "Woof!", "Meow!"] := rfl

/-- Claim C2: for every pair of values, `Dog(name, breed)` yields an object
whose `name` attribute is the given name and whose `breed` attribute is the
given breed, stored verbatim; in particular `Dog("Fido", "Labrador")` has
name "Fido" and breed "Labrador". -/
theorem C2_dog_ctor_stores_verbatim :
    (∀ (α : Type) (name breed : α),
      getattr (mkDog name breed).attrs "name" = some name ∧
      getattr (mkDog name breed).attrs "breed" = some breed) ∧
    getattr (mkDog "Fido" "Labrador").attrs "name" = some "Fido" ∧
    getattr (mkDog "Fido" "Labrador").attrs "breed" = some "Labrador" := by
  refine ⟨fun α name breed => ⟨?_, ?_⟩, rfl, rfl⟩ <;>
    simp [mkDog, Dog_init, setattr, getattr, mangle]

/-- Claim C3: on every `Dog` instance, `bark` prints exactly the one line
"Woof!", returns `None`, and its behaviour does not depend on the
instance's own state: any two receivers produce the same output. -/
theorem C3_bark_fixed_output (α : Type) (self other : Instance α) :
    Dog_bark self = ⟨self, ["Woof!"], none⟩ ∧
    (Dog_bark self).output = (Dog_bark other).output ∧
    (∀ name breed : α,
      callMethod (mkDog name breed) "bark" =
        some ⟨mkDog name breed, ["Woof!"], none⟩) :=
  ⟨rfl, rfl, fun _ _ => rfl⟩

/-- Claim C4: `Cat("Whiskers")` is-a `Animal` (its class's method
resolution order contains `Animal`, and it exposes the same `speak`
action), and its `speak` prints exactly "Meow!", not
"Generic animal sound". -/
theorem C4_cat_isa_animal_meow :
    isinstance (mkCat "Whiskers") PyClass.Animal = true ∧
    (callMethod (mkCat "Whiskers") "speak").isSome = true ∧
    (callMethod (mkCat "Whiskers") "speak").map MethodResult.output =
      some ["Meow!"] ∧
    (callMethod (mkCat "Whiskers") "speak").map MethodResult.output ≠
      some ["Generic animal sound"] := by
  refine ⟨rfl, rfl, rfl, by decide⟩

/-- Claim C5: the same `speak` call dispatches on the concrete variant
without the caller distinguishing it: for any name, a plain `Animal`
prints exactly "Generic animal sound" and a `Cat` prints exactly
"Meow!". -/
theorem C5_polymorphic_dispatch (α : Type) (name : α) :
    (callMethod (mkAnimal name) "speak").map MethodResult.output =
      some ["Generic animal sound"] ∧
    (callMethod (mkCat name) "speak").map MethodResult.output =
      some ["Meow!"] :=
  ⟨rfl, rfl⟩

/-- Claim C6: for every name, `Cat`'s constructor delegates entirely to
`Animal`'s construction logic with the same single argument and adds no
new fields, so a `Cat`'s stored state equals an `Animal`'s. -/
theorem C6_cat_ctor_delegates (α : Type) (name : α) :
    Cat_init name = Animal_init name ∧
    (mkCat name).attrs = (mkAnimal name).attrs :=
  ⟨rfl, rfl⟩

/-- Claim C7: no operation of the script raises: the whole script runs to
completion, and for arbitrary argument values the constructions, the
attribute read `my_dog.name`, and the `bark` and `speak` calls all
succeed. -/
theorem C7_no_errors (α : Type) (n b w : α) :
    script.isSome = true ∧
    (getattr (mkDog n b).attrs "name").isSome = true ∧
    (callMethod (mkDog n b) "bark").isSome = true ∧
    (callMethod (mkAnimal w) "speak").isSome = true ∧
    (callMethod (mkCat w) "speak").isSome = true := by
  refine ⟨rfl, ?_, rfl, rfl, rfl⟩
  simp [mkDog, Dog_init, setattr, getattr, mangle]

/-- Claim C8: no method of the script mutates its receiver: `bark` and
both `speak` bodies return the receiver unchanged, so every attribute set
at construction is left exactly as constructed. -/
theorem C8_no_mutation (α : Type) (self : Instance α) :
    (Dog_bark self).self = self ∧
    (Animal_speak self).self = self ∧
    (Cat_speak self).self = self ∧
    (∀ name breed : α,
      (Dog_bark (mkDog name breed)).self.attrs = Dog_init name breed) ∧
    (∀ name : α,
      (Animal_speak (mkAnimal name)).self.attrs = Animal_init name) ∧
    (∀ name : α,
      (Cat_speak (mkCat name)).self.attrs = Cat_init name) :=
  ⟨rfl, rfl, rfl, fun _ _ => rfl, fun _ => rfl, fun _ => rfl⟩

/-- Claim C9: `Animal.__init__` stores its single argument as an attribute
whose privacy is convention only: the value lands under the mangled name
`_Animal__name`, which a caller outside `Animal`'s methods can still read
on any constructed `Animal` or `Cat` instance. -/
theorem C9_name_reachable_from_outside (α : Type) (name : α) :
    mangle "Animal" "__name" = "_Animal__name" ∧
    getattr (mkAnimal name).attrs "_Animal__name" = some name ∧
    getattr (mkCat name).attrs "_Animal__name" = some name := by
  refine ⟨rfl, ?_, ?_⟩ <;>
    simp [mkAnimal, mkCat, Animal_init, Cat_init, setattr, getattr, mangle]

/-- Claim C10: on every constructed `Animal` or `Cat` instance the value is
stored only under the mangled attribute `_Animal__name`: reading `name` or
the unmangled `__name` from outside the class fails (AttributeError, i.e.
`none`), while reading `_Animal__name` returns the constructor argument. -/
theorem C10_mangled_attribute_access (α : Type) (name : α) :
    (getattr (mkAnimal name).attrs "name" = none ∧
     getattr (mkAnimal name).attrs "__name" = none ∧
     getattr (mkAnimal name).attrs "_Animal__name" = some name) ∧
    (getattr (mkCat name).attrs "name" = none ∧
     getattr (mkCat name).attrs "__name" = none ∧
     getattr (mkCat name).attrs "_Animal__name" = some name) := by
  refine ⟨⟨?_, ?_, ?_⟩, ⟨?_, ?_, ?_⟩⟩ <;>
    simp [mkAnimal, mkCat, Animal_init, Cat_init, setattr, getattr, mangle]

end GoPy
